import Mathlib

/-!
Verification of the admission-control layer of the CoinMarketCap API MCP
server (`src/server.py`).

The source file declares 51 remotely callable tools, each decorated with
`@require_payment_for_tool(price=TokenAmount(...))`, and assembles a
Starlette application in `create_app_with_middleware` that installs the
`D402PaymentMiddleware` payment gate and a `/health` route.  The
middleware itself (credential gate, payment verifier, 402 challenge
builder) lives in the external `traia_iatp.d402` library, which is not
part of this repository; its behaviour is modelled here from the
specification and each such definition is marked `Modelled from the
spec:` in its doc comment.  Everything else is translated directly from
`src/server.py`.
-/

/-- A minimal JSON value type, used for response bodies and for the
pass-through payloads returned by the proxied backend. -/
inductive Json where
  | str (s : String)
  | num (n : Int)
  | bool (b : Bool)
  | arr (xs : List Json)
  | obj (fields : List (String × Json))
  | null

/-- A process environment: an association list of variable names to
values, looked up by exact name (a missing variable yields `none`, as
`os.getenv` yields `None`). -/
def Env : Type := List (String × String)

/-- `os.getenv(k)`: the value of `k` in the environment, or `none`. -/
def getenv (env : Env) (k : String) : Option String :=
  List.lookup k env

/-- `os.getenv(k, d)`: the value of `k`, or the default `d` when unset. -/
def getenvD (env : Env) (k d : String) : String :=
  (getenv env k).getD d

/-- Python truthiness of an optional string: `None` and the empty string
are falsy, every other string is truthy. -/
def pyTruthy : Option String → Bool
  | none => false
  | some s => s != ""

/-- Python `a or b` on optional strings: `a` when truthy, else `b`. -/
def pyOr (a b : Option String) : Option String :=
  if pyTruthy a then a else b

/-- Python `s.lower()`: every character mapped to lower case. -/
def str_lower (s : String) : String := ⟨s.data.map Char.toLower⟩

/-- Python `s.upper()`: every character mapped to upper case. -/
def str_upper (s : String) : String := ⟨s.data.map Char.toUpper⟩

/-- Whether a string is a non-negative decimal integer literal: at
least one character, all of them digits. -/
def is_nat_literal (s : String) : Bool :=
  s != "" && s.data.all Char.isDigit

/-- The numeric value of a decimal digit string. -/
def nat_of_digits (s : String) : Nat :=
  List.foldl (fun n c => 10 * n + (c.toNat - 48)) 0 s.data

/-- Python `int(s)` on a decimal string with optional leading minus
sign: the parsed integer, or `none` (a raised `ValueError`) when the
string is not an integer literal. -/
def parse_int (s : String) : Option Int :=
  if is_nat_literal s then some (nat_of_digits s : Int)
  else if s.startsWith "-" && is_nat_literal (s.drop 1) then
    some (-(nat_of_digits (s.drop 1) : Int))
  else none

/-- `EIP712Domain(name=..., version=...)` from `traia_iatp.d402.types`,
as instantiated in the tool decorators of `src/server.py`. -/
structure EIP712Domain where
  name : String
  version : String
deriving DecidableEq, Repr

/-- `TokenAsset(address=..., decimals=..., network=..., eip712=...)` from
`traia_iatp.d402.types`, as instantiated in the tool decorators. -/
structure TokenAsset where
  address : String
  decimals : Int
  network : String
  eip712 : EIP712Domain
deriving DecidableEq, Repr

/-- `TokenAmount(amount=..., asset=...)` from `traia_iatp.d402.types`:
an amount (a decimal string in the asset's smallest unit) plus the asset
it is denominated in. -/
structure TokenAmount where
  amount : String
  asset : TokenAsset
deriving DecidableEq, Repr

/-- The 51 tool declarations of `src/server.py`: each `@mcp.tool()`
function together with the `price=TokenAmount(...)` literal of its
`@require_payment_for_tool` decorator, in source order.  Every literal
is transcribed field by field from the source. -/
def declared_tools : List (String × TokenAmount) := [
  ("get_v1_content_latest", ⟨"1000000000000000", ⟨"0x3e17730bb2ca51a8D5deD7E44c003A2e95a4d822", 6, "sepolia", ⟨"IATPWallet", "1"⟩⟩⟩),
  ("get_v1_cryptocurrency_airdrop", ⟨"1000000000000000", ⟨"0x3e17730bb2ca51a8D5deD7E44c003A2e95a4d822", 6, "sepolia", ⟨"IATPWallet", "1"⟩⟩⟩),
  ("get_v1_cryptocurrency_airdrops", ⟨"1000000000000000", ⟨"0x3e17730bb2ca51a8D5deD7E44c003A2e95a4d822", 6, "sepolia", ⟨"IATPWallet", "1"⟩⟩⟩),
  ("get_v1_cryptocurrency_categories", ⟨"1000000000000000", ⟨"0x3e17730bb2ca51a8D5deD7E44c003A2e95a4d822", 6, "sepolia", ⟨"IATPWallet", "1"⟩⟩⟩),
  ("get_v1_cryptocurrency_category", ⟨"1000000000000000", ⟨"0x3e17730bb2ca51a8D5deD7E44c003A2e95a4d822", 6, "sepolia", ⟨"IATPWallet", "1"⟩⟩⟩),
  ("get_v1_cryptocurrency_info", ⟨"1000000000000000", ⟨"0x3e17730bb2ca51a8D5deD7E44c003A2e95a4d822", 6, "sepolia", ⟨"IATPWallet", "1"⟩⟩⟩),
  ("get_v1_cryptocurrency_map", ⟨"1000000000000000", ⟨"0x3e17730bb2ca51a8D5deD7E44c003A2e95a4d822", 6, "sepolia", ⟨"IATPWallet", "1"⟩⟩⟩),
  ("get_v1_exchange_assets", ⟨"1000000000000000", ⟨"0x3e17730bb2ca51a8D5deD7E44c003A2e95a4d822", 6, "sepolia", ⟨"IATPWallet", "1"⟩⟩⟩),
  ("get_v1_exchange_info", ⟨"1000000000000000", ⟨"0x3e17730bb2ca51a8D5deD7E44c003A2e95a4d822", 6, "sepolia", ⟨"IATPWallet", "1"⟩⟩⟩),
  ("get_v1_exchange_map", ⟨"1000000000000000", ⟨"0x3e17730bb2ca51a8D5deD7E44c003A2e95a4d822", 6, "sepolia", ⟨"IATPWallet", "1"⟩⟩⟩),
  ("get_v1_fiat_map", ⟨"1000000000000000", ⟨"0x3e17730bb2ca51a8D5deD7E44c003A2e95a4d822", 6, "sepolia", ⟨"IATPWallet", "1"⟩⟩⟩),
  ("get_v1_key_info", ⟨"1000000000000000", ⟨"0x3e17730bb2ca51a8D5deD7E44c003A2e95a4d822", 6, "sepolia", ⟨"IATPWallet", "1"⟩⟩⟩),
  ("get_v1_tools_postman", ⟨"1000000000000000", ⟨"0x3e17730bb2ca51a8D5deD7E44c003A2e95a4d822", 6, "sepolia", ⟨"IATPWallet", "1"⟩⟩⟩),
  ("get_v1_tools_price_conversion", ⟨"1000000000000000", ⟨"0x3e17730bb2ca51a8D5deD7E44c003A2e95a4d822", 6, "sepolia", ⟨"IATPWallet", "1"⟩⟩⟩),
  ("get_v2_cryptocurrency_info", ⟨"1000000000000000", ⟨"0x3e17730bb2ca51a8D5deD7E44c003A2e95a4d822", 6, "sepolia", ⟨"IATPWallet", "1"⟩⟩⟩),
  ("get_v2_tools_price_conversion", ⟨"1000000000000000", ⟨"0x3e17730bb2ca51a8D5deD7E44c003A2e95a4d822", 6, "sepolia", ⟨"IATPWallet", "1"⟩⟩⟩),
  ("get_v3_fear_and_greed_historical", ⟨"1000000000000000", ⟨"0x3e17730bb2ca51a8D5deD7E44c003A2e95a4d822", 6, "sepolia", ⟨"IATPWallet", "1"⟩⟩⟩),
  ("get_v3_fear_and_greed_latest", ⟨"1000000000000000", ⟨"0x3e17730bb2ca51a8D5deD7E44c003A2e95a4d822", 6, "sepolia", ⟨"IATPWallet", "1"⟩⟩⟩),
  ("get_v1_blockchain_statistics_latest", ⟨"1000000000000000", ⟨"0x3e17730bb2ca51a8D5deD7E44c003A2e95a4d822", 6, "sepolia", ⟨"IATPWallet", "1"⟩⟩⟩),
  ("get_v1_community_trending_token", ⟨"1000000000000000", ⟨"0x3e17730bb2ca51a8D5deD7E44c003A2e95a4d822", 6, "sepolia", ⟨"IATPWallet", "1"⟩⟩⟩),
  ("get_v1_community_trending_topic", ⟨"1000000000000000", ⟨"0x3e17730bb2ca51a8D5deD7E44c003A2e95a4d822", 6, "sepolia", ⟨"IATPWallet", "1"⟩⟩⟩),
  ("get_v1_content_posts_comments", ⟨"1000000000000000", ⟨"0x3e17730bb2ca51a8D5deD7E44c003A2e95a4d822", 6, "sepolia", ⟨"IATPWallet", "1"⟩⟩⟩),
  ("get_v1_content_posts_latest", ⟨"1000000000000000", ⟨"0x3e17730bb2ca51a8D5deD7E44c003A2e95a4d822", 6, "sepolia", ⟨"IATPWallet", "1"⟩⟩⟩),
  ("get_v1_content_posts_top", ⟨"1000000000000000", ⟨"0x3e17730bb2ca51a8D5deD7E44c003A2e95a4d822", 6, "sepolia", ⟨"IATPWallet", "1"⟩⟩⟩),
  ("get_v1_cryptocurrency_listings_historical", ⟨"1000000000000000", ⟨"0x3e17730bb2ca51a8D5deD7E44c003A2e95a4d822", 6, "sepolia", ⟨"IATPWallet", "1"⟩⟩⟩),
  ("get_v1_cryptocurrency_listings_latest", ⟨"1000000000000000", ⟨"0x3e17730bb2ca51a8D5deD7E44c003A2e95a4d822", 6, "sepolia", ⟨"IATPWallet", "1"⟩⟩⟩),
  ("get_v1_cryptocurrency_listings_new", ⟨"1000000000000000", ⟨"0x3e17730bb2ca51a8D5deD7E44c003A2e95a4d822", 6, "sepolia", ⟨"IATPWallet", "1"⟩⟩⟩),
  ("get_v1_cryptocurrency_market_pairs_latest", ⟨"1000000000000000", ⟨"0x3e17730bb2ca51a8D5deD7E44c003A2e95a4d822", 6, "sepolia", ⟨"IATPWallet", "1"⟩⟩⟩),
  ("get_v1_cryptocurrency_ohlcv_historical", ⟨"1000000000000000", ⟨"0x3e17730bb2ca51a8D5deD7E44c003A2e95a4d822", 6, "sepolia", ⟨"IATPWallet", "1"⟩⟩⟩),
  ("get_v1_cryptocurrency_ohlcv_latest", ⟨"1000000000000000", ⟨"0x3e17730bb2ca51a8D5deD7E44c003A2e95a4d822", 6, "sepolia", ⟨"IATPWallet", "1"⟩⟩⟩),
  ("get_v1_cryptocurrency_price_performance_stats_latest", ⟨"1000000000000000", ⟨"0x3e17730bb2ca51a8D5deD7E44c003A2e95a4d822", 6, "sepolia", ⟨"IATPWallet", "1"⟩⟩⟩),
  ("get_v1_cryptocurrency_quotes_historical", ⟨"1000000000000000", ⟨"0x3e17730bb2ca51a8D5deD7E44c003A2e95a4d822", 6, "sepolia", ⟨"IATPWallet", "1"⟩⟩⟩),
  ("get_v1_cryptocurrency_quotes_latest", ⟨"1000000000000000", ⟨"0x3e17730bb2ca51a8D5deD7E44c003A2e95a4d822", 6, "sepolia", ⟨"IATPWallet", "1"⟩⟩⟩),
  ("get_v1_cryptocurrency_trending_gainers_losers", ⟨"1000000000000000", ⟨"0x3e17730bb2ca51a8D5deD7E44c003A2e95a4d822", 6, "sepolia", ⟨"IATPWallet", "1"⟩⟩⟩),
  ("get_v1_cryptocurrency_trending_latest", ⟨"1000000000000000", ⟨"0x3e17730bb2ca51a8D5deD7E44c003A2e95a4d822", 6, "sepolia", ⟨"IATPWallet", "1"⟩⟩⟩),
  ("get_v1_cryptocurrency_trending_most_visited", ⟨"1000000000000000", ⟨"0x3e17730bb2ca51a8D5deD7E44c003A2e95a4d822", 6, "sepolia", ⟨"IATPWallet", "1"⟩⟩⟩),
  ("get_v1_exchange_listings_latest", ⟨"1000000000000000", ⟨"0x3e17730bb2ca51a8D5deD7E44c003A2e95a4d822", 6, "sepolia", ⟨"IATPWallet", "1"⟩⟩⟩),
  ("get_v1_exchange_market_pairs_latest", ⟨"1000000000000000", ⟨"0x3e17730bb2ca51a8D5deD7E44c003A2e95a4d822", 6, "sepolia", ⟨"IATPWallet", "1"⟩⟩⟩),
  ("get_v1_exchange_quotes_historical", ⟨"1000000000000000", ⟨"0x3e17730bb2ca51a8D5deD7E44c003A2e95a4d822", 6, "sepolia", ⟨"IATPWallet", "1"⟩⟩⟩),
  ("get_v1_exchange_quotes_latest", ⟨"1000000000000000", ⟨"0x3e17730bb2ca51a8D5deD7E44c003A2e95a4d822", 6, "sepolia", ⟨"IATPWallet", "1"⟩⟩⟩),
  ("get_v1_global_metrics_quotes_historical", ⟨"1000000000000000", ⟨"0x3e17730bb2ca51a8D5deD7E44c003A2e95a4d822", 6, "sepolia", ⟨"IATPWallet", "1"⟩⟩⟩),
  ("get_v1_global_metrics_quotes_latest", ⟨"1000000000000000", ⟨"0x3e17730bb2ca51a8D5deD7E44c003A2e95a4d822", 6, "sepolia", ⟨"IATPWallet", "1"⟩⟩⟩),
  ("get_v2_cryptocurrency_market_pairs_latest", ⟨"1000000000000000", ⟨"0x3e17730bb2ca51a8D5deD7E44c003A2e95a4d822", 6, "sepolia", ⟨"IATPWallet", "1"⟩⟩⟩),
  ("get_v2_cryptocurrency_ohlcv_historical", ⟨"1000000000000000", ⟨"0x3e17730bb2ca51a8D5deD7E44c003A2e95a4d822", 6, "sepolia", ⟨"IATPWallet", "1"⟩⟩⟩),
  ("get_v2_cryptocurrency_ohlcv_latest", ⟨"1000000000000000", ⟨"0x3e17730bb2ca51a8D5deD7E44c003A2e95a4d822", 6, "sepolia", ⟨"IATPWallet", "1"⟩⟩⟩),
  ("get_v2_cryptocurrency_price_performance_stats_latest", ⟨"1000000000000000", ⟨"0x3e17730bb2ca51a8D5deD7E44c003A2e95a4d822", 6, "sepolia", ⟨"IATPWallet", "1"⟩⟩⟩),
  ("get_v2_cryptocurrency_quotes_historical", ⟨"1000000000000000", ⟨"0x3e17730bb2ca51a8D5deD7E44c003A2e95a4d822", 6, "sepolia", ⟨"IATPWallet", "1"⟩⟩⟩),
  ("get_v2_cryptocurrency_quotes_latest", ⟨"1000000000000000", ⟨"0x3e17730bb2ca51a8D5deD7E44c003A2e95a4d822", 6, "sepolia", ⟨"IATPWallet", "1"⟩⟩⟩),
  ("get_v3_cryptocurrency_quotes_historical", ⟨"1000000000000000", ⟨"0x3e17730bb2ca51a8D5deD7E44c003A2e95a4d822", 6, "sepolia", ⟨"IATPWallet", "1"⟩⟩⟩),
  ("get_v1_partners_flipside_crypto_fcas_listings_latest", ⟨"1000000000000000", ⟨"0x3e17730bb2ca51a8D5deD7E44c003A2e95a4d822", 6, "sepolia", ⟨"IATPWallet", "1"⟩⟩⟩),
  ("get_v1_partners_flipside_crypto_fcas_quotes_latest", ⟨"1000000000000000", ⟨"0x3e17730bb2ca51a8D5deD7E44c003A2e95a4d822", 6, "sepolia", ⟨"IATPWallet", "1"⟩⟩⟩)]

/-- The endpoint path of each tool: the path component of the
`url = f"https://pro-api.coinmarketcap.com\x7b...\x7d"` line in each tool
body, which is also the `"endpoint"` value of its error dictionary. -/
def tool_endpoints : List (String × String) := [
  ("get_v1_content_latest", "/v1/content/latest"),
  ("get_v1_cryptocurrency_airdrop", "/v1/cryptocurrency/airdrop"),
  ("get_v1_cryptocurrency_airdrops", "/v1/cryptocurrency/airdrops"),
  ("get_v1_cryptocurrency_categories", "/v1/cryptocurrency/categories"),
  ("get_v1_cryptocurrency_category", "/v1/cryptocurrency/category"),
  ("get_v1_cryptocurrency_info", "/v1/cryptocurrency/info"),
  ("get_v1_cryptocurrency_map", "/v1/cryptocurrency/map"),
  ("get_v1_exchange_assets", "/v1/exchange/assets"),
  ("get_v1_exchange_info", "/v1/exchange/info"),
  ("get_v1_exchange_map", "/v1/exchange/map"),
  ("get_v1_fiat_map", "/v1/fiat/map"),
  ("get_v1_key_info", "/v1/key/info"),
  ("get_v1_tools_postman", "/v1/tools/postman"),
  ("get_v1_tools_price_conversion", "/v1/tools/price-conversion"),
  ("get_v2_cryptocurrency_info", "/v2/cryptocurrency/info"),
  ("get_v2_tools_price_conversion", "/v2/tools/price-conversion"),
  ("get_v3_fear_and_greed_historical", "/v3/fear-and-greed/historical"),
  ("get_v3_fear_and_greed_latest", "/v3/fear-and-greed/latest"),
  ("get_v1_blockchain_statistics_latest", "/v1/blockchain/statistics/latest"),
  ("get_v1_community_trending_token", "/v1/community/trending/token"),
  ("get_v1_community_trending_topic", "/v1/community/trending/topic"),
  ("get_v1_content_posts_comments", "/v1/content/posts/comments"),
  ("get_v1_content_posts_latest", "/v1/content/posts/latest"),
  ("get_v1_content_posts_top", "/v1/content/posts/top"),
  ("get_v1_cryptocurrency_listings_historical", "/v1/cryptocurrency/listings/historical"),
  ("get_v1_cryptocurrency_listings_latest", "/v1/cryptocurrency/listings/latest"),
  ("get_v1_cryptocurrency_listings_new", "/v1/cryptocurrency/listings/new"),
  ("get_v1_cryptocurrency_market_pairs_latest", "/v1/cryptocurrency/market-pairs/latest"),
  ("get_v1_cryptocurrency_ohlcv_historical", "/v1/cryptocurrency/ohlcv/historical"),
  ("get_v1_cryptocurrency_ohlcv_latest", "/v1/cryptocurrency/ohlcv/latest"),
  ("get_v1_cryptocurrency_price_performance_stats_latest", "/v1/cryptocurrency/price-performance-stats/latest"),
  ("get_v1_cryptocurrency_quotes_historical", "/v1/cryptocurrency/quotes/historical"),
  ("get_v1_cryptocurrency_quotes_latest", "/v1/cryptocurrency/quotes/latest"),
  ("get_v1_cryptocurrency_trending_gainers_losers", "/v1/cryptocurrency/trending/gainers-losers"),
  ("get_v1_cryptocurrency_trending_latest", "/v1/cryptocurrency/trending/latest"),
  ("get_v1_cryptocurrency_trending_most_visited", "/v1/cryptocurrency/trending/most-visited"),
  ("get_v1_exchange_listings_latest", "/v1/exchange/listings/latest"),
  ("get_v1_exchange_market_pairs_latest", "/v1/exchange/market-pairs/latest"),
  ("get_v1_exchange_quotes_historical", "/v1/exchange/quotes/historical"),
  ("get_v1_exchange_quotes_latest", "/v1/exchange/quotes/latest"),
  ("get_v1_global_metrics_quotes_historical", "/v1/global-metrics/quotes/historical"),
  ("get_v1_global_metrics_quotes_latest", "/v1/global-metrics/quotes/latest"),
  ("get_v2_cryptocurrency_market_pairs_latest", "/v2/cryptocurrency/market-pairs/latest"),
  ("get_v2_cryptocurrency_ohlcv_historical", "/v2/cryptocurrency/ohlcv/historical"),
  ("get_v2_cryptocurrency_ohlcv_latest", "/v2/cryptocurrency/ohlcv/latest"),
  ("get_v2_cryptocurrency_price_performance_stats_latest", "/v2/cryptocurrency/price-performance-stats/latest"),
  ("get_v2_cryptocurrency_quotes_historical", "/v2/cryptocurrency/quotes/historical"),
  ("get_v2_cryptocurrency_quotes_latest", "/v2/cryptocurrency/quotes/latest"),
  ("get_v3_cryptocurrency_quotes_historical", "/v3/cryptocurrency/quotes/historical"),
  ("get_v1_partners_flipside_crypto_fcas_listings_latest", "/v1/partners/flipside-crypto/fcas/listings/latest"),
  ("get_v1_partners_flipside_crypto_fcas_quotes_latest", "/v1/partners/flipside-crypto/fcas/quotes/latest")]

/-- The outcome of the proxied backend HTTP call inside a tool body, as
seen by the surrounding `try`: either the decoded JSON of a 2xx response
(`requests.get` succeeded, `raise_for_status` passed and `.json()`
decoded), or an exception — transport error, timeout, non-2xx status
raised by `raise_for_status`, or a JSON decode failure — carrying its
message `str(e)`. -/
inductive CallOutcome where
  | success (body : Json)
  | exc (msg : String)

/-- The shared body shape of all 51 tool functions of `src/server.py`
(e.g. `get_v1_content_latest`, lines 155-185): the whole backend call is
wrapped in `try/except Exception`, and any exception is converted to the
ordinary return value `\x7b"error": str(e), "endpoint": <path>\x7d` instead of
propagating; a successful call returns the decoded JSON unchanged.  The
handler is a total function: it never raises. -/
def tool_handler (endpoint : String) (outcome : CallOutcome) : Json :=
  match outcome with
  | .success body => body
  | .exc msg => Json.obj [("error", Json.str msg), ("endpoint", Json.str endpoint)]

/-- The module-level configuration read at import time
(`src/server.py` lines 54-62). -/
structure ModuleConfig where
  stage : String
  port : Int
  server_address : String
  api_key : Option String
deriving DecidableEq, Repr

/-- Module-level initialisation of `src/server.py` (lines 54-62):
`STAGE = os.getenv("STAGE", "MAINNET").upper()`,
`PORT = int(os.getenv("PORT", "8000"))`,
`SERVER_ADDRESS = os.getenv("SERVER_ADDRESS")` with
`raise ValueError(...)` when `SERVER_ADDRESS` is unset or empty, and
`API_KEY = os.getenv("COINMARKETCAP_API_API_KEY")` (missing key only
logs a warning).  A raised exception at import time is modelled as
`Except.error`; the process then refuses to start. -/
def module_init (env : Env) : Except String ModuleConfig :=
  let stage := str_upper (getenvD env "STAGE" "MAINNET")
  match parse_int (getenvD env "PORT" "8000") with
  | none => .error "invalid literal for int()"
  | some port =>
    let server_address := getenv env "SERVER_ADDRESS"
    if pyTruthy server_address = false then
      .error "SERVER_ADDRESS required for payment protocol"
    else
      .ok { stage := stage, port := port,
            server_address := server_address.getD "",
            api_key := getenv env "COINMARKETCAP_API_API_KEY" }

/-- The numeric value of an amount string, `none` when it is not a
non-negative integer literal. -/
def parse_amount (s : String) : Option Nat :=
  if is_nat_literal s then some (nat_of_digits s) else none

/-- Modelled from the spec: the validation applied to one tool's price
descriptor by the registry builder (spec section 4.1; the concrete code,
`extract_payment_configs_from_mcp` of
`traia_iatp.d402.payment_introspection`, is outside this repository).
The amount must be a non-negative integer literal, the asset must have a
non-empty contract address and a positive decimal count, and the signing
domain a non-empty name. -/
def valid_price_config (t : TokenAmount) : Bool :=
  (parse_amount t.amount).isSome && t.asset.address != "" &&
    decide (0 < t.asset.decimals) && t.asset.eip712.name != ""

/-- Modelled from the spec: `build_registry(declared_tools)` (spec
section 4.1), the behaviour of `extract_payment_configs_from_mcp`,
which is outside this repository.  Scans all declarations once; a
malformed price descriptor is a startup-time configuration error
(`Except.error`, aborting `create_app_with_middleware`); otherwise the
immutable registry is the declaration list itself. -/
def extract_payment_configs (declared : List (String × TokenAmount)) :
    Except String (List (String × TokenAmount)) :=
  if declared.all (fun p => valid_price_config p.2) then .ok declared
  else .error "malformed price descriptor"

/-- Modelled from the spec: a caller-supplied payment proof (spec
section 3); the concrete proof format lives in the external payment
protocol library.  `fresh` stands for the validity of the freshness
token relative to the request time. -/
structure PaymentProof where
  payer_identity : String
  asserted_amount : Nat
  asserted_asset_address : String
  asserted_asset_network : String
  signature : String
  fresh : Bool
deriving DecidableEq, Repr

/-- Modelled from the spec: the credential gate (spec section 4.2),
implemented inside the external `D402PaymentMiddleware`.  True only on
exact match against a non-empty configured secret; an unset or empty
secret never matches, even against an empty presented value. -/
def check_credential (presented : Option String) (secret : Option String) : Bool :=
  match presented, secret with
  | some p, some s => s != "" && p == s
  | _, _ => false

/-- The machine-readable denial reasons of the 402 challenge
(spec sections 4.5 and 6). -/
inductive DenialReason where
  | no_proof
  | invalid_proof
  | expired_proof
  | unknown_tool
deriving DecidableEq, Repr

/-- The reason string for each denial reason as it appears in the 402
response body. -/
def reason_string : DenialReason → String
  | .no_proof => "no_proof"
  | .invalid_proof => "invalid_proof"
  | .expired_proof => "expired_proof"
  | .unknown_tool => "unknown_tool"

/-- A 402 challenge response: HTTP status, the accepted payment
requirements, and the denial reason string. -/
structure Http402 where
  status : Nat
  accepts : List TokenAmount
  reason : String
deriving DecidableEq, Repr

/-- Modelled from the spec: `build_402(price_config, denial_reason)`
(spec section 4.5), implemented inside the external
`D402PaymentMiddleware`.  The status is always exactly 402, never
mapped to 401 or 403. -/
def build_402 (accepts : List TokenAmount) (r : DenialReason) : Http402 :=
  { status := 402, accepts := accepts, reason := reason_string r }

/-- One `accepts` entry of the 402 body, rendered to JSON in the exact
shape of spec section 6. -/
def accept_entry (cfg : TokenAmount) : Json :=
  Json.obj [("amount", Json.str cfg.amount),
    ("asset", Json.obj [("address", Json.str cfg.asset.address),
      ("decimals", Json.num cfg.asset.decimals),
      ("network", Json.str cfg.asset.network)]),
    ("domain", Json.obj [("name", Json.str cfg.asset.eip712.name),
      ("version", Json.str cfg.asset.eip712.version)])]

/-- The JSON body of a 402 challenge (spec section 6). -/
def challenge_body (resp : Http402) : Json :=
  Json.obj [("accepts", Json.arr (resp.accepts.map accept_entry)),
    ("reason", Json.str resp.reason)]

/-- The facilitator's answer for one verification request, or the
absence of one: a verdict, or an unreachable/timed-out facilitator. -/
inductive FacilitatorOutcome where
  | verdict (valid : Bool)
  | unreachable
deriving DecidableEq, Repr

/-- Modelled from the spec: `verify_payment(proof, price_config, mode)`
(spec section 4.3), implemented inside the external `traia_iatp.d402`
library.  An expired proof is rejected locally before any network call.
In testing mode only structural checks run (amount at least the
required amount, asset matching by contract address and network).  In
production mode the facilitator decides; rejection, timeout and
transport error all map to a denial (fail closed).  `none` means the
proof is accepted; `some r` is the denial reason. -/
def verify_payment (proof : PaymentProof) (cfg : TokenAmount)
    (testing_mode : Bool) (fac : FacilitatorOutcome) : Option DenialReason :=
  if proof.fresh = false then some .expired_proof
  else if testing_mode then
    if (parse_amount cfg.amount).getD 0 ≤ proof.asserted_amount &&
        proof.asserted_asset_address == cfg.asset.address &&
        proof.asserted_asset_network == cfg.asset.network then none
    else some .invalid_proof
  else
    match fac with
    | .verdict true => none
    | .verdict false => some .invalid_proof
    | .unreachable => some .invalid_proof

/-- The admission-relevant content of one inbound tool request: the
tool identifier resolved by the upstream router, an optional presented
credential, and an optional payment proof. -/
structure ToolRequest where
  tool_id : String
  credential : Option String
  proof : Option PaymentProof
deriving DecidableEq, Repr

/-- How a request was admitted. -/
inductive AdmissionMode where
  | credential
  | payment
deriving DecidableEq, Repr

/-- The outcome of the admission decision: either the request proceeds,
carrying the resolved identity to forward to the proxied backend, or it
is denied with a 402 challenge. -/
inductive AdmissionResult where
  | grant (mode : AdmissionMode) (resolved_identity : Option String)
  | deny (resp : Http402)
deriving DecidableEq, Repr

/-- Modelled from the spec: the per-request admission state machine of
the external `D402PaymentMiddleware` (spec section 4.4).
RESOLVE_TOOL: an unknown tool id is denied (fail closed, reason
`unknown_tool`).  TRY_CREDENTIAL: a matching credential is admitted
with mode `credential`, forwarding the presented credential.
TRY_PAYMENT: an absent proof is denied with reason `no_proof`; an
accepted proof is admitted with mode `payment`, forwarding the server's
internal key; a rejected proof is denied with the verifier's reason. -/
def admission (registry : List (String × TokenAmount))
    (internal_api_key : Option String) (testing_mode : Bool)
    (fac : PaymentProof → TokenAmount → FacilitatorOutcome)
    (req : ToolRequest) : AdmissionResult :=
  match List.lookup req.tool_id registry with
  | none => .deny (build_402 [] .unknown_tool)
  | some cfg =>
    if check_credential req.credential internal_api_key then
      .grant .credential req.credential
    else
      match req.proof with
      | none => .deny (build_402 [cfg] .no_proof)
      | some proof =>
        match verify_payment proof cfg testing_mode (fac proof cfg) with
        | none => .grant .payment internal_api_key
        | some r => .deny (build_402 [cfg] r)

/-- The keyword arguments passed to `app.add_middleware(D402PaymentMiddleware, ...)`
in `create_app_with_middleware` (`src/server.py` lines 4355-4365). -/
structure D402MiddlewareConfig where
  tool_payment_configs : List (String × TokenAmount)
  server_address : String
  requires_auth : Bool
  internal_api_key : Option String
  testing_mode : Bool
  facilitator_url : Option String
  facilitator_api_key : Option String
  server_name : String
deriving DecidableEq, Repr

/-- The assembled Starlette application: the payment middleware
configuration and the registered `/health` route. -/
structure App where
  middleware : D402MiddlewareConfig
  health_route : Bool
deriving DecidableEq, Repr

/-- The testing-mode flag computed in `create_app_with_middleware`
(`src/server.py` line 4318):
`os.getenv("D402_TESTING_MODE", "false").lower() == "true"`. -/
def testing_mode_of (env : Env) : Bool :=
  str_lower (getenvD env "D402_TESTING_MODE" "false") == "true"

/-- `create_app_with_middleware` of `src/server.py` (lines 4294-4383):
extracts the payment configs from the decorators, reads the D402
configuration from the environment, raises `ValueError` when no
facilitator URL is configured while testing mode is disabled (modelled
as `Except.error`, so startup fails before any request is served), and
otherwise returns the app with the D402 middleware installed and the
`/health` route registered. -/
def create_app_with_middleware (cfg : ModuleConfig) (env : Env) :
    Except String App :=
  match extract_payment_configs declared_tools with
  | .error e => .error e
  | .ok tool_payment_configs =>
  let facilitator_url :=
    pyOr (getenv env "FACILITATOR_URL") (getenv env "D402_FACILITATOR_URL")
  let testing_mode := testing_mode_of env
  if !pyTruthy facilitator_url && !testing_mode then
    .error "Set FACILITATOR_URL or enable D402_TESTING_MODE=true"
  else
    .ok { middleware :=
            { tool_payment_configs := tool_payment_configs,
              server_address := cfg.server_address,
              requires_auth := true,
              internal_api_key := cfg.api_key,
              testing_mode := testing_mode,
              facilitator_url := facilitator_url,
              facilitator_api_key := getenv env "D402_FACILITATOR_API_KEY",
              server_name := "coinmarketcap-api-mcp-server" },
          health_route := true }

/-- An inbound HTTP request: method, path, the tool id resolved by the
upstream router, and the optional credential and payment proof. -/
structure HttpRequest where
  method : String
  path : String
  tool_id : String
  credential : Option String
  proof : Option PaymentProof
deriving DecidableEq, Repr

/-- The `/health` route handler of `src/server.py` (lines 4371-4380):
a `JSONResponse` (default status 200) with status `"healthy"`, the
service name and a timestamp. -/
def health_check (timestamp : String) : Nat × Json :=
  (200, Json.obj [("status", Json.str "healthy"),
    ("service", Json.str "coinmarketcap-api-mcp-server"),
    ("timestamp", Json.str timestamp)])

/-- Modelled from the spec: the app's per-request dispatch through the
external `D402PaymentMiddleware` (spec section 4.4).  A GET of
`/health` bypasses the admission state machine unconditionally.  Every
other request runs admission first: on grant the downstream tool
handler runs with the resolved identity; on denial the 402 challenge is
returned and the handler is never invoked. -/
def app_request (app : App)
    (fac : PaymentProof → TokenAmount → FacilitatorOutcome)
    (handler : String → Option String → Json)
    (req : HttpRequest) (timestamp : String) : Nat × Json :=
  if req.path == "/health" && req.method == "GET" then
    health_check timestamp
  else
    match admission app.middleware.tool_payment_configs
        app.middleware.internal_api_key app.middleware.testing_mode fac
        { tool_id := req.tool_id, credential := req.credential,
          proof := req.proof } with
    | .grant _ identity => (200, handler req.tool_id identity)
    | .deny resp => (resp.status, challenge_body resp)

/-- The registry builder accepts the 51 declared tools of
`src/server.py`: every price descriptor is well formed. -/
theorem registry_ok : extract_payment_configs declared_tools = .ok declared_tools := by rfl

/-- An absent credential never passes the credential gate. -/
theorem check_credential_none (secret : Option String) :
    check_credential none secret = false := by
  cases secret <;> rfl

/-- Unfolding of `create_app_with_middleware`: since every declared
price descriptor is well formed, the registry extraction succeeds and
only the facilitator check decides between error and app. -/
theorem create_app_unfold (cfg : ModuleConfig) (env : Env) :
    create_app_with_middleware cfg env =
      if !pyTruthy (pyOr (getenv env "FACILITATOR_URL")
            (getenv env "D402_FACILITATOR_URL")) && !testing_mode_of env then
        .error "Set FACILITATOR_URL or enable D402_TESTING_MODE=true"
      else
        .ok { middleware :=
                { tool_payment_configs := declared_tools,
                  server_address := cfg.server_address,
                  requires_auth := true,
                  internal_api_key := cfg.api_key,
                  testing_mode := testing_mode_of env,
                  facilitator_url := pyOr (getenv env "FACILITATOR_URL")
                    (getenv env "D402_FACILITATOR_URL"),
                  facilitator_api_key := getenv env "D402_FACILITATOR_API_KEY",
                  server_name := "coinmarketcap-api-mcp-server" },
              health_route := true } := by
  unfold create_app_with_middleware
  rw [registry_ok]

/-- C1: for every priced tool and every request that presents neither a
credential nor a payment proof while testing mode is off, admission
denies with HTTP status exactly 402 (never 401 or 403), reason
`no_proof`, and `accepts[0].amount` equal to the amount of that tool's
declared price configuration. -/
theorem no_proof_challenge (registry : List (String × TokenAmount))
    (internal_api_key : Option String) (testing_mode : Bool)
    (fac : PaymentProof → TokenAmount → FacilitatorOutcome)
    (tid : String) (cfg : TokenAmount)
    (hreg : List.lookup tid registry = some cfg)
    (htest : testing_mode = false) :
    ∃ resp, admission registry internal_api_key testing_mode fac
        ⟨tid, none, none⟩ = .deny resp ∧
      resp.status = 402 ∧ resp.status ≠ 401 ∧ resp.status ≠ 403 ∧
      resp.reason = "no_proof" ∧
      resp.accepts.head?.map TokenAmount.amount = some cfg.amount := by
  refine ⟨build_402 [cfg] .no_proof, ?_, rfl, by simp [build_402], by simp [build_402], rfl, rfl⟩
  unfold admission
  simp [hreg, check_credential_none]

/-- C2: if testing mode is disabled and no facilitator endpoint is
configured (neither `FACILITATOR_URL` nor `D402_FACILITATOR_URL` is
set), `create_app_with_middleware` raises `ValueError`, so startup
fails before any request is served; the condition is checked at app
construction, never deferred to a per-request failure. -/
theorem missing_facilitator_startup_error (cfg : ModuleConfig) (env : Env)
    (h1 : getenv env "FACILITATOR_URL" = none)
    (h2 : getenv env "D402_FACILITATOR_URL" = none)
    (htm : testing_mode_of env = false) :
    create_app_with_middleware cfg env =
      .error "Set FACILITATOR_URL or enable D402_TESTING_MODE=true" := by
  rw [create_app_unfold]
  simp [h1, h2, htm, pyOr, pyTruthy]

/-- C3: when the `D402_TESTING_MODE` environment variable is unset, the
computed testing-mode flag is false — testing mode defaults to off —
and any successfully created app has its middleware configured with
`testing_mode = false`, so the facilitator path is used. -/
theorem testing_mode_defaults_off (env : Env)
    (h : getenv env "D402_TESTING_MODE" = none) :
    testing_mode_of env = false ∧
    ∀ cfg app, create_app_with_middleware cfg env = .ok app →
      app.middleware.testing_mode = false := by
  have htm : testing_mode_of env = false := by
    unfold testing_mode_of getenvD
    rw [h]
    decide
  refine ⟨htm, ?_⟩
  intro cfg app hok
  rw [create_app_unfold, htm] at hok
  split at hok
  · exact Except.noConfusion hok
  · injection hok with h2
    subst h2
    rfl

/-- C4: a request naming a tool id with no entry in the payment-config
registry is denied fail-closed: for every downstream handler the
response is HTTP 402 with reason `unknown_tool` (never 404 or 500), and
the result does not depend on the handler — the handler is never
invoked. -/
theorem unknown_tool_fail_closed (app : App)
    (fac : PaymentProof → TokenAmount → FacilitatorOutcome)
    (req : HttpRequest) (ts : String)
    (hreg : List.lookup req.tool_id app.middleware.tool_payment_configs = none)
    (hpath : req.path = "/mcp") :
    ∀ handler, app_request app fac handler req ts =
        (402, Json.obj [("accepts", Json.arr []),
          ("reason", Json.str "unknown_tool")]) ∧
      (app_request app fac handler req ts).1 = 402 ∧
      (app_request app fac handler req ts).1 ≠ 404 ∧
      (app_request app fac handler req ts).1 ≠ 500 := by
  intro handler
  have hmain : app_request app fac handler req ts =
      (402, Json.obj [("accepts", Json.arr []),
        ("reason", Json.str "unknown_tool")]) := by
    unfold app_request admission
    rw [hpath]
    simp [hreg, build_402, challenge_body, reason_string]
  exact ⟨hmain, by rw [hmain], by rw [hmain]; decide, by rw [hmain]; decide⟩

/-- C7: every GET request to `/health` bypasses the admission state
machine unconditionally — regardless of credential, proof, registry or
configuration — and yields a 200 JSON body with status `"healthy"`,
never a 402 challenge. -/
theorem health_bypass (app : App)
    (fac : PaymentProof → TokenAmount → FacilitatorOutcome)
    (handler : String → Option String → Json)
    (req : HttpRequest) (ts : String)
    (hm : req.method = "GET") (hp : req.path = "/health") :
    app_request app fac handler req ts =
      (200, Json.obj [("status", Json.str "healthy"),
        ("service", Json.str "coinmarketcap-api-mcp-server"),
        ("timestamp", Json.str ts)]) ∧
    (app_request app fac handler req ts).1 ≠ 402 := by
  have hmain : app_request app fac handler req ts =
      (200, Json.obj [("status", Json.str "healthy"),
        ("service", Json.str "coinmarketcap-api-mcp-server"),
        ("timestamp", Json.str ts)]) := by
    unfold app_request
    rw [hp, hm]
    simp [health_check]
  exact ⟨hmain, by rw [hmain]; simp⟩

/-- C5: the registry entry for `get_v1_cryptocurrency_quotes_latest`
carries amount `"1000000000000000"`, asset
`0x3e17730bb2ca51a8D5deD7E44c003A2e95a4d822` with 6 decimals on network
`"sepolia"` and signing domain `IATPWallet` version `1`; a request for
it with no credential and no proof is denied with a 402 whose
`accepts[0]` reproduces exactly these values and reason `"no_proof"`. -/
theorem quotes_latest_price_and_challenge :
    List.lookup "get_v1_cryptocurrency_quotes_latest" declared_tools =
      some ⟨"1000000000000000", ⟨"0x3e17730bb2ca51a8D5deD7E44c003A2e95a4d822",
        6, "sepolia", ⟨"IATPWallet", "1"⟩⟩⟩ ∧
    admission declared_tools (some "internal-api-key") false
        (fun _ _ => .unreachable)
        ⟨"get_v1_cryptocurrency_quotes_latest", none, none⟩ =
      .deny ⟨402, [⟨"1000000000000000",
        ⟨"0x3e17730bb2ca51a8D5deD7E44c003A2e95a4d822", 6, "sepolia",
          ⟨"IATPWallet", "1"⟩⟩⟩], "no_proof"⟩ := by
  exact ⟨by decide, by decide⟩

/-- C6: every declared tool's price descriptor is well formed — the
amount is a non-negative integer literal, the contract address is
non-empty, the decimal count is positive and the signing-domain name is
non-empty — so registry extraction succeeds at startup; and for any
declaration list containing a malformed descriptor, extraction is a
startup error instead of producing a runtime 500. -/
theorem registry_validation_and_startup_abort
    (tools : List (String × TokenAmount)) (p : String × TokenAmount)
    (hmem : p ∈ tools) (hbad : valid_price_config p.2 = false) :
    (∀ q ∈ declared_tools, (parse_amount q.2.amount).isSome = true ∧
      q.2.asset.address ≠ "" ∧ 0 < q.2.asset.decimals ∧
      q.2.asset.eip712.name ≠ "") ∧
    extract_payment_configs declared_tools = .ok declared_tools ∧
    extract_payment_configs tools = .error "malformed price descriptor" := by
  refine ⟨by decide, registry_ok, ?_⟩
  have hall : tools.all (fun q => valid_price_config q.2) = false := by
    cases hall2 : tools.all (fun q => valid_price_config q.2) with
    | false => rfl
    | true =>
      have := List.all_eq_true.mp hall2 p hmem
      rw [hbad] at this
      exact Bool.noConfusion this
  simp [extract_payment_configs, hall]

/-- C8: every tool body wraps its backend call in a catch-all
`try/except`; on any exception — transport error, timeout, non-2xx
status or JSON decode failure — the handler returns the ordinary
dictionary with the exception message and that tool's endpoint path
instead of propagating.  `tool_handler` is a total function, so a
handler never raises. -/
theorem tool_handler_total (p : String × String)
    (hp : p ∈ tool_endpoints) (msg : String) :
    tool_handler p.2 (CallOutcome.exc msg) =
      Json.obj [("error", Json.str msg), ("endpoint", Json.str p.2)] := rfl

/-- C9: when the `SERVER_ADDRESS` environment variable is unset, the
module-level initialisation of `src/server.py` raises `ValueError`
during import, so the process refuses to start. -/
theorem server_address_required (env : Env)
    (h : getenv env "SERVER_ADDRESS" = none) :
    ∃ msg, module_init env = Except.error msg := by
  unfold module_init
  split
  · exact ⟨_, rfl⟩
  · rw [h]
    refine ⟨"SERVER_ADDRESS required for payment protocol", ?_⟩
    simp [pyTruthy]

/-- C10: all 51 declared tools carry the identical price configuration
— amount `"1000000000000000"`, asset
`0x3e17730bb2ca51a8D5deD7E44c003A2e95a4d822` with 6 decimals on network
`"sepolia"`, signing domain `IATPWallet` version `1` — so pricing is
uniform and no two tools require different payments. -/
theorem uniform_pricing :
    declared_tools.length = 51 ∧
    (∀ p ∈ declared_tools,
      p.2 = ⟨"1000000000000000", ⟨"0x3e17730bb2ca51a8D5deD7E44c003A2e95a4d822",
        6, "sepolia", ⟨"IATPWallet", "1"⟩⟩⟩) ∧
    (∀ p ∈ declared_tools, ∀ q ∈ declared_tools, p.2 = q.2) := by
  have huni : ∀ p ∈ declared_tools,
      p.2 = (⟨"1000000000000000", ⟨"0x3e17730bb2ca51a8D5deD7E44c003A2e95a4d822",
        6, "sepolia", ⟨"IATPWallet", "1"⟩⟩⟩ : TokenAmount) := by decide
  exact ⟨by decide, huni, fun p hp q hq => (huni p hp).trans (huni q hq).symm⟩

/-- Witness for C1 at a concrete priced tool: `get_v1_content_latest`
with no credential and no proof in non-testing mode. -/
theorem no_proof_challenge_witness :
    ∃ resp, admission declared_tools none false (fun _ _ => .unreachable)
        ⟨"get_v1_content_latest", none, none⟩ = .deny resp ∧
      resp.status = 402 ∧ resp.status ≠ 401 ∧ resp.status ≠ 403 ∧
      resp.reason = "no_proof" ∧
      resp.accepts.head?.map TokenAmount.amount =
        some (⟨"1000000000000000",
          ⟨"0x3e17730bb2ca51a8D5deD7E44c003A2e95a4d822", 6, "sepolia",
            ⟨"IATPWallet", "1"⟩⟩⟩ : TokenAmount).amount :=
  no_proof_challenge declared_tools none false (fun _ _ => .unreachable)
    "get_v1_content_latest"
    ⟨"1000000000000000", ⟨"0x3e17730bb2ca51a8D5deD7E44c003A2e95a4d822",
      6, "sepolia", ⟨"IATPWallet", "1"⟩⟩⟩ (by decide) rfl

/-- Witness for C2 in a concrete empty environment: app creation is a
startup error. -/
theorem missing_facilitator_startup_error_witness :
    create_app_with_middleware ⟨"MAINNET", 8000, "0xserver", none⟩ [] =
      .error "Set FACILITATOR_URL or enable D402_TESTING_MODE=true" :=
  missing_facilitator_startup_error ⟨"MAINNET", 8000, "0xserver", none⟩ []
    rfl rfl (by decide)

/-- Witness for C3 in a concrete environment that sets only the
facilitator URL: testing mode computes to off. -/
theorem testing_mode_defaults_off_witness :
    testing_mode_of [("FACILITATOR_URL", "https://facilitator.example")] = false ∧
    ∀ cfg app, create_app_with_middleware cfg
        [("FACILITATOR_URL", "https://facilitator.example")] = .ok app →
      app.middleware.testing_mode = false :=
  testing_mode_defaults_off [("FACILITATOR_URL", "https://facilitator.example")]
    (by decide)

/-- Witness for C4 at a concrete request for an unregistered tool id. -/
theorem unknown_tool_fail_closed_witness :
    app_request
        { middleware :=
            { tool_payment_configs := declared_tools,
              server_address := "0xserver", requires_auth := true,
              internal_api_key := none, testing_mode := false,
              facilitator_url := some "https://facilitator.example",
              facilitator_api_key := none,
              server_name := "coinmarketcap-api-mcp-server" },
          health_route := true }
        (fun _ _ => .unreachable) (fun _ _ => Json.null)
        ⟨"POST", "/mcp", "no_such_tool", none, none⟩ "2026-01-01T00:00:00" =
      (402, Json.obj [("accepts", Json.arr []),
        ("reason", Json.str "unknown_tool")]) ∧
    (app_request
        { middleware :=
            { tool_payment_configs := declared_tools,
              server_address := "0xserver", requires_auth := true,
              internal_api_key := none, testing_mode := false,
              facilitator_url := some "https://facilitator.example",
              facilitator_api_key := none,
              server_name := "coinmarketcap-api-mcp-server" },
          health_route := true }
        (fun _ _ => .unreachable) (fun _ _ => Json.null)
        ⟨"POST", "/mcp", "no_such_tool", none, none⟩ "2026-01-01T00:00:00").1 = 402 ∧
    (app_request
        { middleware :=
            { tool_payment_configs := declared_tools,
              server_address := "0xserver", requires_auth := true,
              internal_api_key := none, testing_mode := false,
              facilitator_url := some "https://facilitator.example",
              facilitator_api_key := none,
              server_name := "coinmarketcap-api-mcp-server" },
          health_route := true }
        (fun _ _ => .unreachable) (fun _ _ => Json.null)
        ⟨"POST", "/mcp", "no_such_tool", none, none⟩ "2026-01-01T00:00:00").1 ≠ 404 ∧
    (app_request
        { middleware :=
            { tool_payment_configs := declared_tools,
              server_address := "0xserver", requires_auth := true,
              internal_api_key := none, testing_mode := false,
              facilitator_url := some "https://facilitator.example",
              facilitator_api_key := none,
              server_name := "coinmarketcap-api-mcp-server" },
          health_route := true }
        (fun _ _ => .unreachable) (fun _ _ => Json.null)
        ⟨"POST", "/mcp", "no_such_tool", none, none⟩ "2026-01-01T00:00:00").1 ≠ 500 :=
  unknown_tool_fail_closed
    { middleware :=
        { tool_payment_configs := declared_tools,
          server_address := "0xserver", requires_auth := true,
          internal_api_key := none, testing_mode := false,
          facilitator_url := some "https://facilitator.example",
          facilitator_api_key := none,
          server_name := "coinmarketcap-api-mcp-server" },
      health_route := true }
    (fun _ _ => .unreachable)
    ⟨"POST", "/mcp", "no_such_tool", none, none⟩ "2026-01-01T00:00:00"
    (by decide) rfl (fun _ _ => Json.null)

/-- Witness for C6 at a concrete malformed declaration list. -/
theorem registry_validation_and_startup_abort_witness :
    (∀ q ∈ declared_tools, (parse_amount q.2.amount).isSome = true ∧
      q.2.asset.address ≠ "" ∧ 0 < q.2.asset.decimals ∧
      q.2.asset.eip712.name ≠ "") ∧
    extract_payment_configs declared_tools = .ok declared_tools ∧
    extract_payment_configs [("bad_tool", ⟨"", ⟨"", 0, "", ⟨"", ""⟩⟩⟩)] =
      .error "malformed price descriptor" :=
  registry_validation_and_startup_abort
    [("bad_tool", ⟨"", ⟨"", 0, "", ⟨"", ""⟩⟩⟩)]
    ("bad_tool", ⟨"", ⟨"", 0, "", ⟨"", ""⟩⟩⟩)
    (by simp) (by decide)

/-- Witness for C7 at a concrete GET of `/health` carrying neither a
credential nor a proof. -/
theorem health_bypass_witness :
    app_request
        { middleware :=
            { tool_payment_configs := declared_tools,
              server_address := "0xserver", requires_auth := true,
              internal_api_key := none, testing_mode := false,
              facilitator_url := some "https://facilitator.example",
              facilitator_api_key := none,
              server_name := "coinmarketcap-api-mcp-server" },
          health_route := true }
        (fun _ _ => .unreachable) (fun _ _ => Json.null)
        ⟨"GET", "/health", "", none, none⟩ "2026-01-01T00:00:00" =
      (200, Json.obj [("status", Json.str "healthy"),
        ("service", Json.str "coinmarketcap-api-mcp-server"),
        ("timestamp", Json.str "2026-01-01T00:00:00")]) ∧
    (app_request
        { middleware :=
            { tool_payment_configs := declared_tools,
              server_address := "0xserver", requires_auth := true,
              internal_api_key := none, testing_mode := false,
              facilitator_url := some "https://facilitator.example",
              facilitator_api_key := none,
              server_name := "coinmarketcap-api-mcp-server" },
          health_route := true }
        (fun _ _ => .unreachable) (fun _ _ => Json.null)
        ⟨"GET", "/health", "", none, none⟩ "2026-01-01T00:00:00").1 ≠ 402 :=
  health_bypass
    { middleware :=
        { tool_payment_configs := declared_tools,
          server_address := "0xserver", requires_auth := true,
          internal_api_key := none, testing_mode := false,
          facilitator_url := some "https://facilitator.example",
          facilitator_api_key := none,
          server_name := "coinmarketcap-api-mcp-server" },
      health_route := true }
    (fun _ _ => .unreachable) (fun _ _ => Json.null)
    ⟨"GET", "/health", "", none, none⟩ "2026-01-01T00:00:00" rfl rfl

/-- Witness for C8 at the quotes-latest tool and a concrete timeout
exception. -/
theorem tool_handler_total_witness :
    tool_handler "/v1/cryptocurrency/quotes/latest"
        (CallOutcome.exc "HTTPSConnectionPool: read timed out") =
      Json.obj [("error", Json.str "HTTPSConnectionPool: read timed out"),
        ("endpoint", Json.str "/v1/cryptocurrency/quotes/latest")] :=
  tool_handler_total
    ("get_v1_cryptocurrency_quotes_latest", "/v1/cryptocurrency/quotes/latest")
    (by decide) "HTTPSConnectionPool: read timed out"

/-- Witness for C9 in the concrete empty environment. -/
theorem server_address_required_witness :
    ∃ msg, module_init [] = Except.error msg :=
  server_address_required [] rfl
